import Mathlib

/-!
Shallow embedding of `src/src/controller/LivroController.ts` (repository
JaoZ29/oioi): a REST controller with four handlers (`todos`, `novo`,
`remover`, `atualizar`) for a book resource, each mapping a repository
outcome (resolved value, resolved `false`, or thrown error) to a single
HTTP response.

Modelling conventions:
- A JavaScript value handed to `res.json(...)` is a `Json` value.
- An HTTP response is a status code plus a `Json` body.
- A handler is an async function whose promise either resolves (`Except.ok`
  with the response produced by `res.status(...).json(...)`) or rejects
  (`Except.error`, an uncaught thrown value). The `try`/`catch` of each
  handler is the `match` on the repository call's outcome.
- The repository methods of the model class (`Livro.listagemLivros`,
  `Livro.cadastroLivro`, `Livro.removerLivro`, `Livro.atualizarLivro`) are
  external collaborators; each handler takes the collaborator's behaviour
  as a parameter, so theorems quantify over every possible outcome.
- `parseInt` is JavaScript's: leading whitespace skipped, optional sign,
  longest decimal-digit prefix, `NaN` when no digit is found or the
  argument is `undefined` (a missing path parameter).
-/

/-- A thrown JavaScript value (its content is never inspected by the
controller, only logged). -/
def JsError := String

instance : DecidableEq JsError := fun a b => String.decEq a b

/-- A JavaScript number as produced by `parseInt`: either `NaN` or an
integer. -/
inductive JSNum where
  | nan : JSNum
  | int (n : Int) : JSNum
deriving DecidableEq, Repr

/-- JSON-serializable JavaScript values, as handed to `res.json(...)`. -/
inductive Json where
  | null : Json
  | undef : Json
  | bool (b : Bool) : Json
  | num (n : JSNum) : Json
  | str (s : String) : Json
  | arr (xs : List Json) : Json
  | obj (fields : List (String × Json)) : Json

/-- The response emitted by `res.status(st).json(body)`. -/
structure HttpResponse where
  status : Nat
  body : Json

/-- The body `{ mensagem: s }` used by every error and simple-success
branch of the controller. -/
def mensagemBody (s : String) : Json :=
  Json.obj [("mensagem", Json.str s)]

/-- The value of the decimal digit string `ds`. -/
def digitsVal (ds : List Char) : Nat :=
  ds.foldl (fun a c => a * 10 + (c.toNat - 48)) 0

/-- JavaScript whitespace skipped by `parseInt`. -/
def isJsSpace (c : Char) : Bool :=
  c = ' ' || c = '\t' || c = '\n' || c = '\r'

/-- JavaScript `parseInt(s)` with the default radix: skip leading
whitespace, read an optional sign, then the longest prefix of decimal
digits; `NaN` when that prefix is empty. -/
def parseIntStr (s : String) : JSNum :=
  let cs := s.data.dropWhile isJsSpace
  match cs with
  | '-' :: rest =>
    match rest.takeWhile Char.isDigit with
    | [] => JSNum.nan
    | ds => JSNum.int (-(digitsVal ds : Int))
  | '+' :: rest =>
    match rest.takeWhile Char.isDigit with
    | [] => JSNum.nan
    | ds => JSNum.int (digitsVal ds)
  | _ =>
    match cs.takeWhile Char.isDigit with
    | [] => JSNum.nan
    | ds => JSNum.int (digitsVal ds)

/-- `parseInt(req.params.x as string)`: a missing parameter is
`undefined`, which `parseInt` turns into `NaN`. -/
def parseIntJS : Option String → JSNum
  | none => JSNum.nan
  | some s => parseIntStr s

/-- `req.params`: a finite assignment of path-parameter names to string
values (`none` = the parameter is absent, i.e. `undefined`). -/
def Params := String → Option String

/-- The request-body DTO (`interface LivroDTO` in the source): nine
fields, no identifier field. -/
structure LivroDTO where
  titulo : String
  autor : String
  anoPublicacao : String
  editora : String
  isbn : String
  quantTotal : Int
  quantDisponivel : Int
  valorAquisicao : Rat
  statusLivroEmprestado : String
deriving DecidableEq, Repr

/-- Modelled from the spec: the `Livro` model class is not under `src/`
(only the controller is). Per spec section 3, the BookEntity carries the
same fields as the DTO plus an optional identifier, absent until assigned;
the nine-argument constructor used by the controller sets every DTO field
and leaves the identifier unset. -/
structure Livro where
  titulo : String
  autor : String
  anoPublicacao : String
  editora : String
  isbn : String
  quantTotal : Int
  quantDisponivel : Int
  valorAquisicao : Rat
  statusLivroEmprestado : String
  idLivro : Option JSNum := none
deriving DecidableEq, Repr

/-- Modelled from the spec: `new Livro(titulo, ..., statusLivroEmprestado)`
constructs an entity with the nine DTO fields and no identifier. -/
def Livro.construtor (titulo autor anoPublicacao editora isbn : String)
    (quantTotal quantDisponivel : Int) (valorAquisicao : Rat)
    (statusLivroEmprestado : String) : Livro :=
  { titulo := titulo, autor := autor, anoPublicacao := anoPublicacao,
    editora := editora, isbn := isbn, quantTotal := quantTotal,
    quantDisponivel := quantDisponivel, valorAquisicao := valorAquisicao,
    statusLivroEmprestado := statusLivroEmprestado, idLivro := none }

/-- Modelled from the spec: `livro.setIdLivro(id)` assigns the identifier. -/
def Livro.setIdLivro (l : Livro) (id : JSNum) : Livro :=
  { l with idLivro := some id }

namespace LivroController

/-- Handler `todos` (listAll), lines 31-45 of the source: await
`Livro.listagemLivros()`; on success return the list as the 200 body
unchanged; on a thrown error return 400 with the generic message. The
parameter is the outcome of the repository call. -/
def todos (listagemLivros : Except JsError Json) : Except JsError HttpResponse :=
  match listagemLivros with
  | Except.ok listaDeLivros => Except.ok ⟨200, listaDeLivros⟩
  | Except.error _ =>
    Except.ok ⟨400, mensagemBody "Não foi possível acessar a listagem de livros"⟩

/-- The entity built by `novo`, lines 68-76 of the source: `new Livro(...)`
from the nine DTO fields (`setIdLivro` is never called). -/
def novoLivroDe (livroRecebido : LivroDTO) : Livro :=
  Livro.construtor livroRecebido.titulo livroRecebido.autor
    livroRecebido.anoPublicacao livroRecebido.editora livroRecebido.isbn
    livroRecebido.quantTotal livroRecebido.quantDisponivel
    livroRecebido.valorAquisicao livroRecebido.statusLivroEmprestado

/-- Handler `novo` (create), lines 62-96 of the source: build the entity
from the body, await `Livro.cadastroLivro(novoLivro)`; `true` gives 200
success, `false` gives 400 with the operation-specific message, a thrown
error gives 400 with the generic message. -/
def novo (livroRecebido : LivroDTO)
    (cadastroLivro : Livro → Except JsError Bool) : Except JsError HttpResponse :=
  match cadastroLivro (novoLivroDe livroRecebido) with
  | Except.ok true =>
    Except.ok ⟨200, mensagemBody "Livro cadastrado com sucesso!"⟩
  | Except.ok false =>
    Except.ok ⟨400, mensagemBody "Erro ao cadastrar o livro. Entre em contato com o administrador do sistema."⟩
  | Except.error _ =>
    Except.ok ⟨400, mensagemBody "Não foi possível cadastrar o livro. Entre em contato com o administrador do sistema."⟩

/-- The identifier read by `remover`, line 111 of the source:
`parseInt(req.params.idlivro as string)` — key all-lowercase. -/
def idlivroDe (params : Params) : JSNum :=
  parseIntJS (params "idlivro")

/-- Handler `remover` (delete), lines 108-133 of the source: parse the
path parameter, await `Livro.removerLivro(idlivro)`; `true` gives 200,
`false` gives 400 with the operation-specific message, a thrown error
gives 400 with the generic message. -/
def remover (params : Params)
    (removerLivro : JSNum → Except JsError Bool) : Except JsError HttpResponse :=
  match removerLivro (idlivroDe params) with
  | Except.ok true =>
    Except.ok ⟨200, mensagemBody "O livro foi removido com sucesso!"⟩
  | Except.ok false =>
    Except.ok ⟨400, mensagemBody "Erro ao remover o livro. Entre em contato com o administrador do sistema."⟩
  | Except.error _ =>
    Except.ok ⟨400, mensagemBody "Não foi possível remover o livro. Entre em contato com o administrador do sistema."⟩

/-- The entity built by `atualizar`, lines 139-153 of the source:
`new Livro(...)` from the nine DTO fields, then
`setIdLivro(parseInt(req.params.idLivro as string))` — key with capital L. -/
def livroAtualizadoDe (livroRecebido : LivroDTO) (params : Params) : Livro :=
  (Livro.construtor livroRecebido.titulo livroRecebido.autor
    livroRecebido.anoPublicacao livroRecebido.editora livroRecebido.isbn
    livroRecebido.quantTotal livroRecebido.quantDisponivel
    livroRecebido.valorAquisicao
    livroRecebido.statusLivroEmprestado).setIdLivro
      (parseIntJS (params "idLivro"))

/-- Handler `atualizar` (update), lines 136-171 of the source: build the
entity from the body, set its identifier from the path, await
`Livro.atualizarLivro(LivroAtualizado)`; `true` gives 200, `false` gives
400 with the operation-specific message, a thrown error gives 400 with the
generic message (string literals copied verbatim from the source). -/
def atualizar (livroRecebido : LivroDTO) (params : Params)
    (atualizarLivro : Livro → Except JsError Bool) : Except JsError HttpResponse :=
  match atualizarLivro (livroAtualizadoDe livroRecebido params) with
  | Except.ok true =>
    Except.ok ⟨200, mensagemBody "O Livro foi atualizado com sucesso!"⟩
  | Except.ok false =>
    Except.ok ⟨400, mensagemBody "Erro ao atualizar o Livro. Entre em contato com o administrador do sistema"⟩
  | Except.error _ =>
    Except.ok ⟨400, mensagemBody "Não foi possivel atualizar o livro.Entre em contato com o administrador do sistema"⟩

end LivroController

/-- The HTTP status carried by a handler's resolved response (0 marks a
rejected promise, i.e. an error that escaped the handler — the controller
never produces it). -/
def emittedStatus : Except JsError HttpResponse → Nat
  | Except.ok r => r.status
  | Except.error _ => 0

/-- A sample request body used by concrete witnesses. -/
def sampleDTO : LivroDTO :=
  { titulo := "A", autor := "B", anoPublicacao := "2020", editora := "C",
    isbn := "123", quantTotal := 2, quantDisponivel := 2,
    valorAquisicao := 21 / 2, statusLivroEmprestado := "none" }

/-- Path parameters binding `idlivro` to the non-numeric string "abc". -/
def paramsAbc : Params :=
  fun k => if k = "idlivro" then some "abc" else none

/-- Path parameters binding `idlivro` to "7". -/
def params7 : Params :=
  fun k => if k = "idlivro" then some "7" else none

/-- Path parameters binding `idLivro` (capital L) to "3". -/
def params3 : Params :=
  fun k => if k = "idLivro" then some "3" else none

/-- Path parameters binding only the all-lowercase key `idlivro`,
leaving `idLivro` absent. -/
def paramsLowerOnly : Params :=
  fun k => if k = "idlivro" then some "5" else none

/-- A repository call on an entity that resolves `true`. -/
def repoLivroTrue : Livro → Except JsError Bool := fun _ => Except.ok true

/-- A repository call on an entity that resolves `false`. -/
def repoLivroFalse : Livro → Except JsError Bool := fun _ => Except.ok false

/-- A repository call on an entity that throws. -/
def repoLivroThrow : Livro → Except JsError Bool := fun _ => Except.error "falha"

/-- A repository call on an identifier that throws. -/
def repoNumThrow : JSNum → Except JsError Bool := fun _ => Except.error "falha"

/-- C1: for every invocation of any of the four handlers, whatever the
repository call's outcome (resolves with a value, resolves with `false`,
or throws), the handler's promise resolves with exactly one HTTP response:
no thrown error propagates past the handler boundary. -/
theorem c1_exactly_one_response
    (l : Except JsError Json) (b : LivroDTO) (p : Params)
    (rc : Livro → Except JsError Bool) (rd : JSNum → Except JsError Bool)
    (ru : Livro → Except JsError Bool) :
    (∃ r, LivroController.todos l = Except.ok r) ∧
    (∃ r, LivroController.novo b rc = Except.ok r) ∧
    (∃ r, LivroController.remover p rd = Except.ok r) ∧
    (∃ r, LivroController.atualizar b p ru = Except.ok r) := by
  refine ⟨?_, ?_, ?_, ?_⟩
  · rcases l with e | v <;> exact ⟨_, rfl⟩
  · unfold LivroController.novo
    rcases rc (LivroController.novoLivroDe b) with e | tf
    · exact ⟨_, rfl⟩
    · cases tf <;> exact ⟨_, rfl⟩
  · unfold LivroController.remover
    rcases rd (LivroController.idlivroDe p) with e | tf
    · exact ⟨_, rfl⟩
    · cases tf <;> exact ⟨_, rfl⟩
  · unfold LivroController.atualizar
    rcases ru (LivroController.livroAtualizadoDe b p) with e | tf
    · exact ⟨_, rfl⟩
    · cases tf <;> exact ⟨_, rfl⟩

/-- C2 counterexample: the claim says every error body's single key is
exactly `message`; on the code, the listAll error body's single key is
`mensagem`, which differs from `message`. -/
theorem c2_counterexample :
    LivroController.todos (Except.error "erro de conexao") =
      Except.ok ⟨400, Json.obj
        [("mensagem", Json.str "Não foi possível acessar a listagem de livros")]⟩ ∧
    (("mensagem" == "message") = false) :=
  ⟨rfl, by decide⟩

/-- C2 (amended): every JSON response body for the error and
simple-success cases of all four handlers is an object whose single key is
exactly `mensagem`, and for listAll the success body is the raw value
returned by the repository, not wrapped in an object. -/
theorem c2_amended_mensagem_key
    (v : Json) (e : JsError) (b : LivroDTO) (p : Params)
    (rc ru : Livro → Except JsError Bool) (rd : JSNum → Except JsError Bool) :
    LivroController.todos (Except.ok v) = Except.ok ⟨200, v⟩ ∧
    (∃ s, LivroController.todos (Except.error e) = Except.ok ⟨400, mensagemBody s⟩) ∧
    (∃ st s, LivroController.novo b rc = Except.ok ⟨st, mensagemBody s⟩) ∧
    (∃ st s, LivroController.remover p rd = Except.ok ⟨st, mensagemBody s⟩) ∧
    (∃ st s, LivroController.atualizar b p ru = Except.ok ⟨st, mensagemBody s⟩) := by
  refine ⟨rfl, ⟨_, rfl⟩, ?_, ?_, ?_⟩
  · unfold LivroController.novo
    rcases rc (LivroController.novoLivroDe b) with e' | tf
    · exact ⟨_, _, rfl⟩
    · cases tf <;> exact ⟨_, _, rfl⟩
  · unfold LivroController.remover
    rcases rd (LivroController.idlivroDe p) with e' | tf
    · exact ⟨_, _, rfl⟩
    · cases tf <;> exact ⟨_, _, rfl⟩
  · unfold LivroController.atualizar
    rcases ru (LivroController.livroAtualizadoDe b p) with e' | tf
    · exact ⟨_, _, rfl⟩
    · cases tf <;> exact ⟨_, _, rfl⟩

/-- C3: the create handler has exactly three outcomes — repository
resolves `true` gives 200 with the success message, resolves `false` gives
400 with the operation-specific message, a thrown error gives 400 with a
distinct, more generic message; the two 400 texts differ. -/
theorem c3_create_three_outcomes
    (b : LivroDTO) (cadastroLivro : Livro → Except JsError Bool) (e : JsError) :
    (cadastroLivro (LivroController.novoLivroDe b) = Except.ok true →
      LivroController.novo b cadastroLivro =
        Except.ok ⟨200, mensagemBody "Livro cadastrado com sucesso!"⟩) ∧
    (cadastroLivro (LivroController.novoLivroDe b) = Except.ok false →
      LivroController.novo b cadastroLivro =
        Except.ok ⟨400, mensagemBody "Erro ao cadastrar o livro. Entre em contato com o administrador do sistema."⟩) ∧
    (cadastroLivro (LivroController.novoLivroDe b) = Except.error e →
      LivroController.novo b cadastroLivro =
        Except.ok ⟨400, mensagemBody "Não foi possível cadastrar o livro. Entre em contato com o administrador do sistema."⟩) ∧
    (("Erro ao cadastrar o livro. Entre em contato com o administrador do sistema." ==
      "Não foi possível cadastrar o livro. Entre em contato com o administrador do sistema.") = false) := by
  refine ⟨?_, ?_, ?_, by decide⟩ <;>
    · intro h
      unfold LivroController.novo
      rw [h]

/-- C3 witness: the three outcomes at a concrete request body and concrete
repository behaviours. -/
theorem c3_witness :
    LivroController.novo sampleDTO repoLivroTrue =
      Except.ok ⟨200, mensagemBody "Livro cadastrado com sucesso!"⟩ ∧
    LivroController.novo sampleDTO repoLivroFalse =
      Except.ok ⟨400, mensagemBody "Erro ao cadastrar o livro. Entre em contato com o administrador do sistema."⟩ ∧
    LivroController.novo sampleDTO repoLivroThrow =
      Except.ok ⟨400, mensagemBody "Não foi possível cadastrar o livro. Entre em contato com o administrador do sistema."⟩ :=
  ⟨(c3_create_three_outcomes sampleDTO repoLivroTrue "falha").1 rfl,
   (c3_create_three_outcomes sampleDTO repoLivroFalse "falha").2.1 rfl,
   (c3_create_three_outcomes sampleDTO repoLivroThrow "falha").2.2.1 rfl⟩

/-- C4: the entity passed to the repository by the update handler carries
as its identifier the integer parsed from the path parameter — path
`idLivro=3` yields identifier 3 — for every request body (the DTO has no
identifier field). -/
theorem c4_update_id_from_path (b : LivroDTO) (p : Params) :
    (LivroController.livroAtualizadoDe b p).idLivro =
      some (parseIntJS (p "idLivro")) ∧
    (p "idLivro" = some "3" →
      (LivroController.livroAtualizadoDe b p).idLivro = some (JSNum.int 3)) := by
  refine ⟨rfl, ?_⟩
  intro h
  show some (parseIntJS (p "idLivro")) = some (JSNum.int 3)
  rw [h]
  decide

/-- C4 witness: at a concrete body and a path binding `idLivro` to "3",
the constructed entity's identifier is 3. -/
theorem c4_witness :
    (LivroController.livroAtualizadoDe sampleDTO params3).idLivro =
      some (JSNum.int 3) :=
  (c4_update_id_from_path sampleDTO params3).2 (by decide)

/-- C5: the delete handler parses the path parameter as an integer and
passes that number (`7` for path "7", the `NaN` sentinel for "abc") to the
repository with no pre-validation, and a thrown repository error is still
caught and mapped to the generic 400 message. -/
theorem c5_delete_parses_int
    (p : Params) (removerLivro : JSNum → Except JsError Bool) (e : JsError) :
    (p "idlivro" = some "7" → LivroController.idlivroDe p = JSNum.int 7) ∧
    (p "idlivro" = some "abc" → LivroController.idlivroDe p = JSNum.nan) ∧
    (removerLivro (LivroController.idlivroDe p) = Except.error e →
      LivroController.remover p removerLivro =
        Except.ok ⟨400, mensagemBody "Não foi possível remover o livro. Entre em contato com o administrador do sistema."⟩) := by
  refine ⟨?_, ?_, ?_⟩
  · intro h
    unfold LivroController.idlivroDe
    rw [h]
    decide
  · intro h
    unfold LivroController.idlivroDe
    rw [h]
    decide
  · intro h
    unfold LivroController.remover
    rw [h]

/-- C5 witness: concrete paths "7" and "abc", and a concrete throwing
repository at the `NaN` input. -/
theorem c5_witness :
    LivroController.idlivroDe params7 = JSNum.int 7 ∧
    LivroController.idlivroDe paramsAbc = JSNum.nan ∧
    LivroController.remover paramsAbc repoNumThrow =
      Except.ok ⟨400, mensagemBody "Não foi possível remover o livro. Entre em contato com o administrador do sistema."⟩ :=
  ⟨(c5_delete_parses_int params7 repoNumThrow "falha").1 (by decide),
   (c5_delete_parses_int paramsAbc repoNumThrow "falha").2.1 (by decide),
   (c5_delete_parses_int paramsAbc repoNumThrow "falha").2.2 rfl⟩

/-- C6 counterexample: the claim says the listAll failure body is
`{"message":"Could not access the book listing"}`; on the code it is
`{"mensagem":"Não foi possível acessar a listagem de livros"}` — both the
key and the message text differ. -/
theorem c6_counterexample :
    LivroController.todos (Except.error "falha no banco") =
      Except.ok ⟨400, mensagemBody "Não foi possível acessar a listagem de livros"⟩ ∧
    (("mensagem" == "message") = false) ∧
    (("Não foi possível acessar a listagem de livros" ==
      "Could not access the book listing") = false) :=
  ⟨rfl, by decide, by decide⟩

/-- C6 (amended): when the repository resolves with the empty sequence the
listAll handler responds 200 with body `[]`; when it throws — whatever the
error — it responds 400 with body
`{"mensagem":"Não foi possível acessar a listagem de livros"}`. -/
theorem c6_amended_listagem (e : JsError) :
    LivroController.todos (Except.ok (Json.arr [])) =
      Except.ok ⟨200, Json.arr []⟩ ∧
    LivroController.todos (Except.error e) =
      Except.ok ⟨400, mensagemBody "Não foi possível acessar a listagem de livros"⟩ :=
  ⟨rfl, rfl⟩

/-- C7: for every invocation of every handler and every repository
outcome, the emitted HTTP status is either 200 or 400 — never 404 or any
other status. -/
theorem c7_only_200_400
    (l : Except JsError Json) (b : LivroDTO) (p : Params)
    (rc ru : Livro → Except JsError Bool) (rd : JSNum → Except JsError Bool) :
    (emittedStatus (LivroController.todos l) = 200 ∨
      emittedStatus (LivroController.todos l) = 400) ∧
    (emittedStatus (LivroController.novo b rc) = 200 ∨
      emittedStatus (LivroController.novo b rc) = 400) ∧
    (emittedStatus (LivroController.remover p rd) = 200 ∨
      emittedStatus (LivroController.remover p rd) = 400) ∧
    (emittedStatus (LivroController.atualizar b p ru) = 200 ∨
      emittedStatus (LivroController.atualizar b p ru) = 400) := by
  refine ⟨?_, ?_, ?_, ?_⟩
  · rcases l with e | v
    · exact Or.inr rfl
    · exact Or.inl rfl
  · unfold LivroController.novo
    rcases rc (LivroController.novoLivroDe b) with e | tf
    · exact Or.inr rfl
    · cases tf
      · exact Or.inr rfl
      · exact Or.inl rfl
  · unfold LivroController.remover
    rcases rd (LivroController.idlivroDe p) with e | tf
    · exact Or.inr rfl
    · cases tf
      · exact Or.inr rfl
      · exact Or.inl rfl
  · unfold LivroController.atualizar
    rcases ru (LivroController.livroAtualizadoDe b p) with e | tf
    · exact Or.inr rfl
    · cases tf
      · exact Or.inr rfl
      · exact Or.inl rfl

/-- C8: the entity the create handler passes to the repository has no
identifier set, while the entity the update handler passes has its
identifier present, derived from the URL path parameter. -/
theorem c8_id_absent_create_present_update (b : LivroDTO) (p : Params) :
    (LivroController.novoLivroDe b).idLivro = none ∧
    (LivroController.livroAtualizadoDe b p).idLivro =
      some (parseIntJS (p "idLivro")) :=
  ⟨rfl, rfl⟩

/-- C9: the listAll handler has no falsy-result branch — every resolved
value, including `null`, `undefined` or a non-array, is returned verbatim
with status 200; status 400 arises only from the throw branch. -/
theorem c9_no_falsy_branch (v : Json) (e : JsError) :
    LivroController.todos (Except.ok v) = Except.ok ⟨200, v⟩ ∧
    emittedStatus (LivroController.todos (Except.ok v)) = 200 ∧
    emittedStatus (LivroController.todos (Except.error e)) = 400 :=
  ⟨rfl, rfl, rfl⟩

/-- C10: the update handler reads the path parameter under `idLivro`
(capital L) while the delete handler reads `idlivro` (all lowercase);
the two keys differ, so a parameter map binding only `idlivro` leaves the
update entity's identifier as `NaN`. -/
theorem c10_param_key_mismatch (b : LivroDTO) (p : Params) :
    LivroController.idlivroDe p = parseIntJS (p "idlivro") ∧
    (LivroController.livroAtualizadoDe b p).idLivro =
      some (parseIntJS (p "idLivro")) ∧
    (("idlivro" == "idLivro") = false) ∧
    (p "idLivro" = none →
      (LivroController.livroAtualizadoDe b p).idLivro = some JSNum.nan) := by
  refine ⟨rfl, rfl, by decide, ?_⟩
  intro h
  show some (parseIntJS (p "idLivro")) = some JSNum.nan
  rw [h]
  decide

/-- C10 witness: a parameter map binding only the lowercase key `idlivro`
yields an update entity whose identifier is `NaN`. -/
theorem c10_witness :
    (LivroController.livroAtualizadoDe sampleDTO paramsLowerOnly).idLivro =
      some JSNum.nan :=
  (c10_param_key_mismatch sampleDTO paramsLowerOnly).2.2.2 (by decide)
